import Mathlib

/-!
Shallow embedding of the core of the `ccc-fb-generator` repository:
the per-key rate limiter (`src/services/rate-limiter.ts`), the content
discovery aggregation pipeline (`src/services/content-discovery.ts`),
and the database-backed scheduling operations (`DatabaseService`).

Conventions: JavaScript numbers used as counters are modelled as `Nat`,
epoch-millisecond timestamps as `Int` (rate limiter) or `ℚ` (discovery,
where fractional arithmetic such as `hoursOld` matters), and JavaScript
number arithmetic on scores as exact rational arithmetic over `ℚ`.
`undefined`-able fields are `Option`; a JS `if (x)` truthiness test on a
string is modelled as a non-emptiness test.
-/

/-! ## Rate limiter (`src/services/rate-limiter.ts`) -/

/-- One per-key window entry, `{ count: number; resetTime: number }`
as stored in the map and storage of the `RateLimiter` durable object. -/
structure RateLimitEntry where
  count : Nat
  resetTime : Int
  deriving DecidableEq, Repr

/-- The `RateLimitResult` interface (rate-limiter.ts lines 9–14). -/
structure RateLimitResult where
  allowed : Bool
  remaining : Nat
  resetTime : Int
  retryAfter : Option Int
  deriving DecidableEq, Repr

/-- The `RateLimitConfig` interface (rate-limiter.ts lines 3–7);
the optional `keyGenerator` is not used by the modelled operations. -/
structure RateLimitConfig where
  maxRequests : Nat
  windowMs : Int
  deriving DecidableEq, Repr

/-- State of the `RateLimiter` durable object: the in-memory
`this.requests` map and the durable `this.state.storage`, both mapping
keys to window entries. -/
structure RLState where
  requests : String → Option RateLimitEntry
  storage : String → Option RateLimitEntry

/-- A fresh durable object: both maps empty. -/
def RLState.empty : RLState :=
  { requests := fun _ => none, storage := fun _ => none }

/-- `Math.ceil(a / b)` on integers with `b > 0`, as used for `retryAfter`. -/
def jsCeilDiv (a b : Int) : Int :=
  -(Int.fdiv (-a) b)

/-- Lines 67–72: read the entry from memory, falling back to storage,
falling back to the fresh default `{ count: 0, resetTime: now + windowMs }`. -/
def loadEntry (s : RLState) (key : String) (now windowMs : Int) : RateLimitEntry :=
  match s.requests key with
  | some c => c
  | none => (s.storage key).getD { count := 0, resetTime := now + windowMs }

/-- Lines 74–78: reset the window if it has expired (`now >= resetTime`). -/
def refreshEntry (e : RateLimitEntry) (now windowMs : Int) : RateLimitEntry :=
  if e.resetTime ≤ now then { count := 0, resetTime := now + windowMs } else e

/-- `RateLimiter.checkRateLimit` (lines 59–95) as a pure state transformer.
The source writes the entry back to `this.requests` on lines 71, 77 and 85;
in every reachable case the final map value for `key` is the evaluated
entry, so the embedding performs a single write. `this.state.storage.put`
happens only on the allowed path (line 86). -/
def RateLimiter.checkRateLimit (key : String) (maxRequests : Nat)
    (windowMs now : Int) (s : RLState) : RateLimitResult × RLState :=
  let current := refreshEntry (loadEntry s key now windowMs) now windowMs
  let allowed : Bool := decide (current.count < maxRequests)
  let current' := if allowed then { current with count := current.count + 1 } else current
  ({ allowed := allowed
     remaining := maxRequests - current'.count
     resetTime := current'.resetTime
     retryAfter := if allowed then none else some (jsCeilDiv (current'.resetTime - now) 1000) },
   { requests := fun k => if k = key then some current' else s.requests k
     storage := if allowed then (fun k => if k = key then some current' else s.storage k)
                else s.storage })

/-- `RateLimiter.handleReset` (lines 52–57): delete the key from both the
in-memory map and durable storage. -/
def RateLimiter.handleReset (key : String) (s : RLState) : RLState :=
  { requests := fun k => if k = key then none else s.requests k
    storage := fun k => if k = key then none else s.storage k }

/-- The count currently stored for a key, as observed by the object itself:
memory shadows storage; an absent key counts as 0. -/
def storedCount (s : RLState) (k : String) : Nat :=
  match s.requests k with
  | some e => e.count
  | none =>
    match s.storage k with
    | some e => e.count
    | none => 0

/-- The entry a `check` call would load for a key before applying the
lazy-initialisation default: memory first, then storage. -/
def lookupEntry (s : RLState) (k : String) : Option RateLimitEntry :=
  match s.requests k with
  | some e => some e
  | none => s.storage k

/-- Run a sequence of `check` calls, each event being a `(key, now)` pair,
with a fixed `maxRequests` and `windowMs` configuration. -/
def runChecks (maxRequests : Nat) (windowMs : Int)
    (evs : List (String × Int)) (s : RLState) : RLState :=
  evs.foldl (fun st ev => (RateLimiter.checkRateLimit ev.1 maxRequests windowMs ev.2 st).2) s

/-- Every entry stored anywhere (memory or storage) has count ≤ m. -/
def countsLe (s : RLState) (m : Nat) : Prop :=
  ∀ k, (∀ e, s.requests k = some e → e.count ≤ m) ∧
    (∀ e, s.storage k = some e → e.count ≤ m)

/-- `RateLimitService.checkRateLimit` (lines 107–135): delegate to the
durable object; on any thrown error, fail open with
`{ allowed: true, remaining: maxRequests, resetTime: now + windowMs }`.
The durable-object round trip is abstracted as an `Except` outcome. -/
def RateLimitService.checkRateLimit (cfg : RateLimitConfig) (now : Int)
    (fetchResult : Except String RateLimitResult) : RateLimitResult :=
  match fetchResult with
  | Except.ok r => r
  | Except.error _ =>
    { allowed := true, remaining := cfg.maxRequests
      resetTime := now + cfg.windowMs, retryAfter := none }

/-- A concrete state holding one expired window entry for key "a". -/
def exampleRL : RLState :=
  { requests := fun k => if k = "a" then some { count := 2, resetTime := 5 } else none
    storage := fun _ => none }

/-! ## Scheduling queue and content records (`DatabaseService`) -/

/-- The `SchedulingQueueItem.status` values (schema CHECK constraint). -/
inductive QueueStatus where
  | queued
  | scheduled
  | posting
  | posted
  | failed
  | cancelled
  deriving DecidableEq, Repr

/-- The `ContentRecord.status` values. -/
inductive ContentStatus where
  | pending
  | generating
  | ready
  | approved
  | rejected
  | scheduled
  | posted
  | failed
  deriving DecidableEq, Repr

/-- The `SchedulingQueueItem` interface. The SQL autoincrement id is a `Nat`;
DATETIME columns are kept as opaque strings, as in the TypeScript interface. -/
structure SchedulingQueueItem where
  id : Nat
  content_id : String
  scheduled_time : String
  fb_post_id : Option String
  status : QueueStatus
  retry_count : Nat
  error_message : Option String
  created_at : String
  updated_at : String
  deriving DecidableEq, Repr

/-- The `ContentRecord` interface. Fields that the modelled operations treat
as opaque payload are kept as optional strings. -/
structure ContentRecord where
  id : String
  type : String
  source : Option String
  source_url : Option String
  prompt : Option String
  generated_content_url : Option String
  caption : Option String
  hashtags : Option String
  status : ContentStatus
  ai_provider : Option String
  generation_metadata : Option String
  created_at : String
  updated_at : String
  scheduled_at : Option String
  posted_at : Option String
  deriving DecidableEq, Repr

/-- The D1 database state touched by the modelled `DatabaseService`
operations: the `content` and `scheduling_queue` tables, plus the next
autoincrement row id of `scheduling_queue`. -/
structure Database where
  content : List ContentRecord
  scheduling_queue : List SchedulingQueueItem
  next_queue_id : Nat
  deriving DecidableEq, Repr

/-- `DatabaseService.updateContentStatus`: set `status` and `updated_at` on
the row with the given id; additionally set `generation_metadata` when a
(truthy) metadata argument is supplied and `posted_at` when the new status
is `posted`. -/
def DatabaseService.updateContentStatus (db : Database) (id : String)
    (status : ContentStatus) (metadata : Option String) (now : String) : Database :=
  { db with
    content := db.content.map fun c =>
      if c.id = id then
        { c with
          status := status
          updated_at := now
          generation_metadata :=
            match metadata with
            | some mdata => some mdata
            | none => c.generation_metadata
          posted_at := if status = ContentStatus.posted then some now else c.posted_at }
      else c }

/-- `DatabaseService.scheduleContent`: INSERT a new `scheduling_queue` row
with status `queued` (retry_count takes the schema default 0), then set the
content record status to `scheduled`, and return the inserted row. -/
def DatabaseService.scheduleContent (db : Database) (contentId scheduledTime now : String) :
    SchedulingQueueItem × Database :=
  let item : SchedulingQueueItem :=
    { id := db.next_queue_id
      content_id := contentId
      scheduled_time := scheduledTime
      fb_post_id := none
      status := QueueStatus.queued
      retry_count := 0
      error_message := none
      created_at := now
      updated_at := now }
  let db1 : Database :=
    { db with
      scheduling_queue := db.scheduling_queue ++ [item]
      next_queue_id := db.next_queue_id + 1 }
  (item, DatabaseService.updateContentStatus db1 contentId ContentStatus.scheduled none now)

/-- `DatabaseService.updateSchedulingQueueStatus`: UPDATE the row with the
given id, setting `status` and `updated_at` unconditionally, `fb_post_id`
when a truthy `fbPostId` is supplied, and `error_message` plus
`retry_count = retry_count + 1` when a truthy `errorMessage` is supplied.
A JS truthiness test on a string argument is false for the empty string. -/
def DatabaseService.updateSchedulingQueueStatus (db : Database) (id : Nat)
    (status : QueueStatus) (fbPostId errorMessage : Option String)
    (now : String) : Database :=
  { db with
    scheduling_queue := db.scheduling_queue.map fun it =>
      if it.id = id then
        { it with
          status := status
          updated_at := now
          fb_post_id :=
            match fbPostId with
            | some s => if s = "" then it.fb_post_id else some s
            | none => it.fb_post_id
          error_message :=
            match errorMessage with
            | some s => if s = "" then it.error_message else some s
            | none => it.error_message
          retry_count :=
            match errorMessage with
            | some s => if s = "" then it.retry_count else it.retry_count + 1
            | none => it.retry_count }
      else it }

/-- Modelled from the spec: the declared lifecycle graph of §4.4
(queued → scheduled → posting → posted or failed; failed → queued;
any non-terminal state → cancelled). The code under `src/` declares the
status values but contains no transition-validation function, so the graph
itself is taken from the words of the spec. -/
def specAllowedTransition : QueueStatus → QueueStatus → Bool
  | QueueStatus.queued, QueueStatus.scheduled => true
  | QueueStatus.scheduled, QueueStatus.posting => true
  | QueueStatus.posting, QueueStatus.posted => true
  | QueueStatus.posting, QueueStatus.failed => true
  | QueueStatus.failed, QueueStatus.queued => true
  | QueueStatus.queued, QueueStatus.cancelled => true
  | QueueStatus.scheduled, QueueStatus.cancelled => true
  | QueueStatus.posting, QueueStatus.cancelled => true
  | QueueStatus.failed, QueueStatus.cancelled => true
  | _, _ => false

/-- The status of the queue row with a given id, when present. -/
def queueItemStatus (db : Database) (id : Nat) : Option QueueStatus :=
  (db.scheduling_queue.find? fun it => it.id == id).map fun it => it.status

/-- The status of the content record with a given id, when present. -/
def contentStatus (db : Database) (id : String) : Option ContentStatus :=
  (db.content.find? fun c => c.id == id).map fun c => c.status

/-- Whether a queue status is non-terminal (queued, scheduled or posting). -/
def isNonTerminal (st : QueueStatus) : Bool :=
  st == QueueStatus.queued || st == QueueStatus.scheduled || st == QueueStatus.posting

/-- Number of non-terminal queue rows for a given content id. -/
def nonTerminalCount (db : Database) (cid : String) : Nat :=
  (db.scheduling_queue.filter fun it => it.content_id == cid && isNonTerminal it.status).length

/-- A database with one content record "c1" (ready) and one queue row
(id 1, already posted), used as the starting point of the concrete
scheduling scenarios. -/
def exampleDb : Database :=
  { content := [{ id := "c1", type := "image", source := none, source_url := none
                  prompt := none, generated_content_url := none, caption := none
                  hashtags := none, status := ContentStatus.ready, ai_provider := none
                  generation_metadata := none, created_at := "t0", updated_at := "t0"
                  scheduled_at := none, posted_at := none }]
    scheduling_queue := [{ id := 1, content_id := "c1", scheduled_time := "T"
                           fb_post_id := none, status := QueueStatus.posted
                           retry_count := 0, error_message := none
                           created_at := "t0", updated_at := "t0" }]
    next_queue_id := 2 }

/-- The queue row of `exampleDb` after the invalid posted → queued update. -/
def exampleUpdatedRow : SchedulingQueueItem :=
  { id := 1, content_id := "c1", scheduled_time := "T", fb_post_id := none
    status := QueueStatus.queued, retry_count := 0, error_message := none
    created_at := "t0", updated_at := "t1" }

/-- The content record of `exampleDb` after it has been scheduled. -/
def exampleScheduledContent : ContentRecord :=
  { id := "c1", type := "image", source := none, source_url := none
    prompt := none, generated_content_url := none, caption := none
    hashtags := none, status := ContentStatus.scheduled, ai_provider := none
    generation_metadata := none, created_at := "t0", updated_at := "t1"
    scheduled_at := none, posted_at := none }

/-! ## Content discovery (`src/services/content-discovery.ts`)

Scores are JavaScript numbers; they are modelled as exact rationals.
`createdAt` dates are modelled by their epoch-millisecond value
(`Date.getTime()`), so `a.createdAt.getTime()` is simply the field. -/

/-- The `DiscoveredContent.source` union type. -/
inductive ContentSource where
  | reddit
  | twitter
  | news
  | web_scrape
  deriving DecidableEq, Repr

/-- The `DiscoveredContent.contentType` union type. -/
inductive DiscoveredType where
  | image
  | video
  | text
  | link
  deriving DecidableEq, Repr

/-- The `DiscoveredContent` interface (content-discovery.ts lines 5–21). -/
structure DiscoveredContent where
  id : String
  title : String
  description : Option String
  imageUrl : Option String
  videoUrl : Option String
  sourceUrl : String
  source : ContentSource
  sourceName : String
  author : Option String
  score : Option ℚ
  engagementCount : Option ℚ
  createdAt : ℚ
  tags : List String
  contentType : DiscoveredType
  quality : ℚ
  deriving DecidableEq, Repr

/-- The comparator score of `discoverContent` (lines 122–125):
`quality * 0.7 + (Date.now() - createdAt) / (24*60*60*1000) * 0.3`.
Note the age term is added, not subtracted. -/
def codeSortScore (now : ℚ) (c : DiscoveredContent) : ℚ :=
  c.quality * 0.7 + (now - c.createdAt) / (24 * 60 * 60 * 1000) * 0.3

/-- Lines 112–118: collect the values of the fulfilled promises, in order,
dropping rejected ones. -/
def collectFulfilled (results : List (Except String (List DiscoveredContent))) :
    List DiscoveredContent :=
  match results with
  | [] => []
  | Except.ok items :: rest => items ++ collectFulfilled rest
  | Except.error _ :: rest => collectFulfilled rest

/-- `ContentDiscoveryService.discoverContent` (lines 86–139), parameterised
by the settled per-source outcomes: collect fulfilled results, sort with
the comparator `(a, b) => scoreB - scoreA` (descending in `codeSortScore`;
JavaScript sort is stable, modelled by a stable insertion sort), and
truncate to `maxItems`. -/
def ContentDiscoveryService.discoverContent
    (results : List (Except String (List DiscoveredContent)))
    (maxItems : Nat) (now : ℚ) : List DiscoveredContent :=
  (List.insertionSort (fun a b => codeSortScore now b ≤ codeSortScore now a)
    (collectFulfilled results)).take maxItems

/-- Modelled from the spec: the natural key of a discovered item — two
items collide when they share source plus source-native id, or have an
identical URL. The code under `src/` has no deduplication function; this
definition follows the words of the spec for stating claim C6. -/
def sameNaturalKey (a b : DiscoveredContent) : Bool :=
  (a.source == b.source && a.id == b.id) || a.sourceUrl == b.sourceUrl

/-- Modelled from the spec: the composite ranking key of §4.3,
`0.7×qualityScore + 0.3×recencyFactor` with
`recencyFactor = 1 − min(ageDays, 1)`. -/
def specRankKey (now : ℚ) (c : DiscoveredContent) : ℚ :=
  0.7 * c.quality + 0.3 * (1 - min ((now - c.createdAt) / (24 * 60 * 60 * 1000)) 1)

/-- A reddit item used in the concrete discovery scenarios. -/
def itemA : DiscoveredContent :=
  { id := "reddit_a1", title := "A", description := none, imageUrl := none
    videoUrl := none, sourceUrl := "https://example.com/x"
    source := ContentSource.reddit, sourceName := "cats", author := some "u1"
    score := some 100, engagementCount := some 5, createdAt := 0
    tags := ["cats", "reddit"], contentType := DiscoveredType.image, quality := 1/2 }

/-- A news item with the same URL as `itemA` (a natural-key duplicate). -/
def itemB : DiscoveredContent :=
  { id := "news_b2", title := "B", description := none, imageUrl := none
    videoUrl := none, sourceUrl := "https://example.com/x"
    source := ContentSource.news, sourceName := "paper", author := none
    score := none, engagementCount := none, createdAt := 0
    tags := ["news"], contentType := DiscoveredType.link, quality := 1/2 }

/-- An item created at `now` (age 0). -/
def itemNew : DiscoveredContent :=
  { id := "reddit_new", title := "New", description := none, imageUrl := none
    videoUrl := none, sourceUrl := "https://example.com/new"
    source := ContentSource.reddit, sourceName := "cats", author := none
    score := some 50, engagementCount := none, createdAt := 172800000
    tags := [], contentType := DiscoveredType.image, quality := 1/2 }

/-- An item of equal quality created two days earlier. -/
def itemOld : DiscoveredContent :=
  { id := "reddit_old", title := "Old", description := none, imageUrl := none
    videoUrl := none, sourceUrl := "https://example.com/old"
    source := ContentSource.reddit, sourceName := "cats", author := none
    score := some 50, engagementCount := none, createdAt := 0
    tags := [], contentType := DiscoveredType.image, quality := 1/2 }

/-! ## Quality scoring (`content-discovery.ts` lines 278–301 and 400–423) -/

/-- The fields of the `RedditPost` interface used by the modelled
functions; the opaque `preview` JSON blob (used only by parsing) and
`thumbnail` are omitted. `created_utc` is in epoch seconds. -/
structure RedditPost where
  id : String
  title : String
  selftext : Option String
  url : String
  author : String
  score : ℚ
  num_comments : ℚ
  created_utc : ℚ
  subreddit : String
  permalink : String
  is_video : Bool
  over_18 : Bool
  deriving DecidableEq, Repr

/-- Whether a character list starts with a given pattern. -/
def listStartsWith : List Char → List Char → Bool
  | [], _ => true
  | _ :: _, [] => false
  | p :: ps, c :: cs => p == c && listStartsWith ps cs

/-- Whether a character list contains a given pattern as a contiguous run. -/
def listContains (sub : List Char) (l : List Char) : Bool :=
  match l with
  | [] => listStartsWith sub []
  | _ :: cs => listStartsWith sub l || listContains sub cs

/-- Whether a character list ends with a given pattern. -/
def listEndsWith (suf l : List Char) : Bool :=
  listStartsWith suf.reverse l.reverse

/-- `s.toLowerCase()` as a character list. -/
def lowerChars (s : String) : List Char :=
  s.toList.map Char.toLower

/-- The regex test `\.(jpg|jpeg|png|gif)$` with the ignore-case flag. -/
def hasImageExtension (url : String) : Bool :=
  [".jpg", ".jpeg", ".png", ".gif"].any fun ext =>
    listEndsWith ext.toList (lowerChars url)

/-- `ContentDiscoveryService.calculateRedditQuality`: score-based part
capped at 0.4, engagement part capped at 0.3 (only when there are
comments), 0.2 media bonus, recency bonus `0.1*(1 - hoursOld/24)` for
items under 24 hours old, and a final `Math.min(quality, 1)`. -/
def ContentDiscoveryService.calculateRedditQuality (now : ℚ) (post : RedditPost) : ℚ :=
  let q1 := min (post.score / 1000) 0.4
  let q2 := if 0 < post.num_comments then q1 + min (post.num_comments / 100) 0.3 else q1
  let q3 := if post.is_video || hasImageExtension post.url then q2 + 0.2 else q2
  let hoursOld := (now - post.created_utc * 1000) / (1000 * 60 * 60)
  let q4 := if hoursOld < 24 then q3 + 0.1 * (1 - hoursOld / 24) else q3
  min q4 1

/-- The `NewsArticle` interface; `publishedAt` is modelled by its parsed
epoch-millisecond value (`new Date(article.publishedAt).getTime()`) and
the nested `source` object is flattened into `source_id`/`source_name`. -/
structure NewsArticle where
  title : String
  description : String
  url : String
  urlToImage : String
  publishedAtMs : ℚ
  source_id : String
  source_name : String
  content : String
  deriving DecidableEq, Repr

/-- The reputable-source allowlist of `calculateNewsQuality`. -/
def reputableSources : List String :=
  ["bbc", "cnn", "reuters", "associated press", "npr"]

/-- `s.toLowerCase().includes(sub)`: substring containment after
lowercasing the subject string. -/
def strIncludes (s sub : String) : Bool :=
  listContains sub.toList (lowerChars s)

/-- `ContentDiscoveryService.calculateNewsQuality`: base 0.5, 0.2 image
bonus (a truthy `urlToImage`), 0.2 reputable-source bonus
(case-insensitive substring match against the allowlist), recency bonus
`0.1*(1 - hoursOld/48)` for items under 48 hours old, and a final
`Math.min(quality, 1)`. -/
def ContentDiscoveryService.calculateNewsQuality (now : ℚ) (article : NewsArticle) : ℚ :=
  let q1 : ℚ := 0.5
  let q2 := if article.urlToImage ≠ "" then q1 + 0.2 else q1
  let q3 := if reputableSources.any (fun src => strIncludes article.source_name src)
    then q2 + 0.2 else q2
  let hoursOld := (now - article.publishedAtMs) / (1000 * 60 * 60)
  let q4 := if hoursOld < 48 then q3 + 0.1 * (1 - hoursOld / 48) else q3
  min q4 1

/-- A heavily downvoted text post: rawScore −2000, no comments, no media,
far older than 24 hours. -/
def redditNegPost : RedditPost :=
  { id := "neg1", title := "downvoted", selftext := none
    url := "https://example.com/post", author := "u"
    score := -2000, num_comments := 0, created_utc := 0, subreddit := "cats"
    permalink := "/r/cats/neg1", is_video := false, over_18 := false }

/-- An ordinary upvoted image post. -/
def examplePost : RedditPost :=
  { id := "p1", title := "cute cat", selftext := none
    url := "https://i.redd.it/cat.jpg", author := "u"
    score := 500, num_comments := 20, created_utc := 0, subreddit := "cats"
    permalink := "/r/cats/p1", is_video := false, over_18 := false }

/-- An ordinary news article with an image. -/
def exampleArticle : NewsArticle :=
  { title := "Cat saves the day", description := "a heroic cat"
    url := "https://news.example/cat", urlToImage := "https://news.example/cat.jpg"
    publishedAtMs := 0, source_id := "bbc-news", source_name := "BBC News"
    content := "story" }

/-! ## Theorems: rate limiter -/

theorem countsLe_empty (m : Nat) : countsLe RLState.empty m := by
  intro k
  constructor <;> intro e he <;> simp [RLState.empty] at he

theorem loadEntry_count_eq (s : RLState) (key : String) (now w : Int) :
    (loadEntry s key now w).count = storedCount s key := by
  unfold loadEntry storedCount
  rcases hr : s.requests key with _ | e
  · rcases hs : s.storage key with _ | e <;> simp
  · simp

theorem loadEntry_count_le (s : RLState) (key : String) (now w : Int) (m : Nat)
    (h : countsLe s m) : (loadEntry s key now w).count ≤ m := by
  unfold loadEntry
  rcases hr : s.requests key with _ | e
  · rcases hs : s.storage key with _ | e
    · simp
    · simpa using (h key).2 e hs
  · exact (h key).1 e hr

theorem refreshEntry_count_le (e : RateLimitEntry) (now w : Int) :
    (refreshEntry e now w).count ≤ e.count := by
  unfold refreshEntry
  split
  · exact Nat.zero_le _
  · exact Nat.le_refl _

theorem checkRateLimit_preserves_countsLe (key : String) (m : Nat) (w now : Int)
    (s : RLState) (h : countsLe s m) :
    countsLe (RateLimiter.checkRateLimit key m w now s).2 m := by
  have hload : (loadEntry s key now w).count ≤ m := loadEntry_count_le s key now w m h
  have hcur : (refreshEntry (loadEntry s key now w) now w).count ≤ m :=
    Nat.le_trans (refreshEntry_count_le _ _ _) hload
  intro k
  by_cases hall : (refreshEntry (loadEntry s key now w) now w).count < m
  · constructor <;> intro e he <;>
      simp only [RateLimiter.checkRateLimit, decide_eq_true_eq, hall, if_true] at he
    · by_cases hk : k = key
      · rw [if_pos hk] at he
        cases he
        exact hall
      · rw [if_neg hk] at he
        exact (h k).1 e he
    · by_cases hk : k = key
      · rw [if_pos hk] at he
        cases he
        exact hall
      · rw [if_neg hk] at he
        exact (h k).2 e he
  · constructor <;> intro e he <;>
      simp only [RateLimiter.checkRateLimit, decide_eq_true_eq, hall, if_false] at he
    · by_cases hk : k = key
      · rw [if_pos hk] at he
        cases he
        exact hcur
      · rw [if_neg hk] at he
        exact (h k).1 e he
    · exact (h k).2 e he

theorem runChecks_countsLe (m : Nat) (w : Int) (evs : List (String × Int)) (s : RLState)
    (h : countsLe s m) : countsLe (runChecks m w evs s) m := by
  induction evs generalizing s with
  | nil => exact h
  | cons ev rest ih =>
    simp only [runChecks, List.foldl] at *
    exact ih _ (checkRateLimit_preserves_countsLe ev.1 m w ev.2 s h)

theorem storedCount_le_of_countsLe (s : RLState) (m : Nat) (h : countsLe s m)
    (k : String) : storedCount s k ≤ m := by
  unfold storedCount
  rcases hr : s.requests k with _ | e
  · rcases hs : s.storage k with _ | e
    · simp
    · exact (h k).2 e hs
  · exact (h k).1 e hr

/-- C1: for every key and every sequence of check calls with a fixed
`maxRequests`/`windowMs` configuration, starting from a fresh limiter the
stored count never exceeds `maxRequests`; moreover a check call whose
result has `allowed = false` never increases the stored count of its key. -/
theorem c1_count_never_exceeds_max (m : Nat) (w : Int) (evs : List (String × Int)) :
    (∀ k, storedCount (runChecks m w evs RLState.empty) k ≤ m) ∧
    (∀ (s : RLState) (key : String) (now : Int),
      (RateLimiter.checkRateLimit key m w now s).1.allowed = false →
      storedCount (RateLimiter.checkRateLimit key m w now s).2 key ≤ storedCount s key) := by
  constructor
  · intro k
    exact storedCount_le_of_countsLe _ m (runChecks_countsLe m w evs _ (countsLe_empty m)) k
  · intro s key now hd
    by_cases hall : (refreshEntry (loadEntry s key now w) now w).count < m
    · exfalso
      simp [RateLimiter.checkRateLimit, hall] at hd
    · have hafter :
          storedCount (RateLimiter.checkRateLimit key m w now s).2 key =
            (refreshEntry (loadEntry s key now w) now w).count := by
        simp [RateLimiter.checkRateLimit, storedCount, hall]
      rw [hafter, ← loadEntry_count_eq s key now w]
      exact refreshEntry_count_le _ _ _

theorem c1_witness :
    storedCount (runChecks 1 10 [("a", 0), ("a", 0)] RLState.empty) "a" ≤ 1 ∧
    storedCount (RateLimiter.checkRateLimit "a" 1 10 0
        (runChecks 1 10 [("a", 0)] RLState.empty)).2 "a" ≤
      storedCount (runChecks 1 10 [("a", 0)] RLState.empty) "a" :=
  ⟨(c1_count_never_exceeds_max 1 10 [("a", 0), ("a", 0)]).1 "a",
   (c1_count_never_exceeds_max 1 10 []).2 (runChecks 1 10 [("a", 0)] RLState.empty)
     "a" 0 (by decide)⟩

/-- C2: if the stored window of a key has expired (`now ≥ resetTime`), the
next check call first resets the count and opens a fresh window ending at
`now + windowMs` before evaluating: the evaluation result is allowed
exactly when `0 < maxRequests`, and the stored entry afterwards has
count 1 when allowed (0 otherwise) with resetTime `now + windowMs`,
independently of the previous count. -/
theorem c2_window_reset (s : RLState) (key : String) (m : Nat) (w now : Int)
    (e : RateLimitEntry) (hl : lookupEntry s key = some e) (hexp : e.resetTime ≤ now) :
    (RateLimiter.checkRateLimit key m w now s).2.requests key =
      some { count := if 0 < m then 1 else 0, resetTime := now + w } ∧
    (RateLimiter.checkRateLimit key m w now s).1.allowed = decide (0 < m) ∧
    (RateLimiter.checkRateLimit key m w now s).1.resetTime = now + w := by
  have hload : loadEntry s key now w = e := by
    unfold lookupEntry at hl
    unfold loadEntry
    rcases hr : s.requests key with _ | c
    · rw [hr] at hl
      simp only at hl
      rw [hl]
      rfl
    · rw [hr] at hl
      simp only [Option.some.injEq] at hl
      simp [hl]
  have hfresh : refreshEntry (loadEntry s key now w) now w =
      { count := 0, resetTime := now + w } := by
    rw [hload]
    unfold refreshEntry
    rw [if_pos hexp]
  by_cases hm : 0 < m
  · refine ⟨?_, ?_, ?_⟩ <;>
      simp [RateLimiter.checkRateLimit, hfresh, hm]
  · refine ⟨?_, ?_, ?_⟩ <;>
      simp [RateLimiter.checkRateLimit, hfresh, hm]

theorem c2_witness :
    (RateLimiter.checkRateLimit "a" 3 100 10 exampleRL).2.requests "a" =
      some { count := 1, resetTime := 110 } ∧
    (RateLimiter.checkRateLimit "a" 3 100 10 exampleRL).1.allowed = true ∧
    (RateLimiter.checkRateLimit "a" 3 100 10 exampleRL).1.resetTime = 110 := by
  simpa using c2_window_reset exampleRL "a" 3 100 10 { count := 2, resetTime := 5 }
    (by decide) (by decide)

/-- C3: if the durable-object round trip throws, `RateLimitService.checkRateLimit`
fails open, returning `allowed = true` with `remaining = maxRequests`. -/
theorem c3_fail_open (cfg : RateLimitConfig) (now : Int) (err : String) :
    (RateLimitService.checkRateLimit cfg now (Except.error err)).allowed = true ∧
    (RateLimitService.checkRateLimit cfg now (Except.error err)).remaining =
      cfg.maxRequests :=
  ⟨rfl, rfl⟩

/-- C10 as stated is false at `m = 0`: reset followed by a check with
`maxRequests = 0` returns `allowed = false`, not `allowed = true`. -/
theorem c10_counterexample :
    ¬ ((RateLimiter.checkRateLimit "k" 0 1000 0
        (RateLimiter.handleReset "k" RLState.empty)).1.allowed = true) := by
  decide

/-- C10 (amended): for `maxRequests ≥ 1`, a reset of a key immediately
followed by a check on that key always returns `allowed = true` with
`remaining = maxRequests - 1`. -/
theorem c10_reset_then_check (s : RLState) (key : String) (m : Nat) (w now : Int)
    (hm : 1 ≤ m) :
    (RateLimiter.checkRateLimit key m w now (RateLimiter.handleReset key s)).1.allowed =
      true ∧
    (RateLimiter.checkRateLimit key m w now (RateLimiter.handleReset key s)).1.remaining =
      m - 1 := by
  have h0 : 0 < m := hm
  have hload : loadEntry (RateLimiter.handleReset key s) key now w =
      { count := 0, resetTime := now + w } := by
    simp [loadEntry, RateLimiter.handleReset]
  have hfresh : refreshEntry (loadEntry (RateLimiter.handleReset key s) key now w) now w =
      { count := 0, resetTime := now + w } := by
    rw [hload]
    unfold refreshEntry
    split <;> rfl
  constructor <;> simp [RateLimiter.checkRateLimit, hfresh, h0]

theorem c10_witness :
    (RateLimiter.checkRateLimit "k" 3 100 7
        (RateLimiter.handleReset "k" RLState.empty)).1.allowed = true ∧
    (RateLimiter.checkRateLimit "k" 3 100 7
        (RateLimiter.handleReset "k" RLState.empty)).1.remaining = 2 := by
  simpa using c10_reset_then_check RLState.empty "k" 3 100 7 (by decide)

/-! ## Theorems: scheduling queue -/

/-- C4 as stated is false on the code: updating the already-posted queue
row 1 to `queued` — a transition outside the declared lifecycle graph — is
not rejected, and it changes the stored status. -/
theorem c4_counterexample :
    specAllowedTransition QueueStatus.posted QueueStatus.queued = false ∧
    queueItemStatus
        (DatabaseService.updateSchedulingQueueStatus exampleDb 1 QueueStatus.queued
          none none "t1") 1 = some QueueStatus.queued := by
  decide

/-- C4 (amended): `updateSchedulingQueueStatus` applies the requested
status unconditionally — the targeted row ends with exactly the requested
status for every requested value, whether or not the transition lies in
the declared lifecycle graph, and every other row is unchanged; the
operation never rejects a transition. -/
theorem c4_update_applies_status_unconditionally (db : Database) (id : Nat)
    (st : QueueStatus) (fb err : Option String) (now : String) :
    (∀ it ∈ (DatabaseService.updateSchedulingQueueStatus db id st fb err
        now).scheduling_queue, it.id = id → it.status = st) ∧
    (∀ it ∈ db.scheduling_queue, it.id ≠ id →
      it ∈ (DatabaseService.updateSchedulingQueueStatus db id st fb err
        now).scheduling_queue) := by
  constructor
  · intro it hmem hid
    simp only [DatabaseService.updateSchedulingQueueStatus, List.mem_map] at hmem
    obtain ⟨it0, hit0, heq⟩ := hmem
    by_cases h0 : it0.id = id
    · rw [if_pos h0] at heq
      rw [← heq]
    · rw [if_neg h0] at heq
      rw [← heq] at hid
      exact absurd hid h0
  · intro it hmem hid
    simp only [DatabaseService.updateSchedulingQueueStatus, List.mem_map]
    exact ⟨it, hmem, by rw [if_neg hid]⟩

theorem c4_witness : exampleUpdatedRow.status = QueueStatus.queued :=
  (c4_update_applies_status_unconditionally exampleDb 1 QueueStatus.queued
      none none "t1").1 exampleUpdatedRow (by decide) (by decide)

/-- C5 as stated is false on the code: calling `scheduleContent` twice for
the same content id leaves two non-terminal (queued) queue rows for it —
the at-most-one invariant is not enforced. -/
theorem c5_counterexample :
    ¬ (nonTerminalCount
        (DatabaseService.scheduleContent
          (DatabaseService.scheduleContent exampleDb "c1" "T1" "t1").2
          "c1" "T2" "t2").2 "c1" ≤ 1) := by
  decide

/-- C5 (amended): `scheduleContent` creates its queue row in status
`queued` for the given content id, the row is present in the resulting
queue, and the owning content record is simultaneously set to status
`scheduled`; however the operation does not enforce at most one
non-terminal row per content id (see the counterexample). -/
theorem c5_schedule_creates_queued (db : Database) (cid time now : String) :
    ((DatabaseService.scheduleContent db cid time now).1.status = QueueStatus.queued ∧
      (DatabaseService.scheduleContent db cid time now).1.content_id = cid) ∧
    (DatabaseService.scheduleContent db cid time now).1 ∈
      (DatabaseService.scheduleContent db cid time now).2.scheduling_queue ∧
    ∀ c ∈ (DatabaseService.scheduleContent db cid time now).2.content,
      c.id = cid → c.status = ContentStatus.scheduled := by
  refine ⟨⟨rfl, rfl⟩, ?_, ?_⟩
  · simp [DatabaseService.scheduleContent, DatabaseService.updateContentStatus]
  · intro c hmem hcid
    simp only [DatabaseService.scheduleContent, DatabaseService.updateContentStatus,
      List.mem_map] at hmem
    obtain ⟨c0, hc0, heq⟩ := hmem
    by_cases h0 : c0.id = cid
    · rw [if_pos h0] at heq
      rw [← heq]
    · rw [if_neg h0] at heq
      rw [← heq] at hcid
      exact absurd hcid h0

theorem c5_witness :
    (DatabaseService.scheduleContent exampleDb "c1" "T1" "t1").1.status =
      QueueStatus.queued ∧
    exampleScheduledContent.status = ContentStatus.scheduled :=
  ⟨(c5_schedule_creates_queued exampleDb "c1" "T1" "t1").1.1,
   (c5_schedule_creates_queued exampleDb "c1" "T1" "t1").2.2
     exampleScheduledContent (by decide) (by decide)⟩

/-! ## Theorems: discovery aggregation and quality scoring -/

/-- C6 as stated is false on the code: `discoverContent` performs no
deduplication, so a run whose sources yield two distinct items with the
same natural key (here: an identical URL) returns both. -/
theorem c6_counterexample :
    ¬ ((ContentDiscoveryService.discoverContent
        [Except.ok [itemA], Except.ok [itemB]] 5 0).Pairwise
          fun a b => sameNaturalKey a b = false) := by
  have h : ContentDiscoveryService.discoverContent
      [Except.ok [itemA], Except.ok [itemB]] 5 0 = [itemA, itemB] := by
    norm_num [ContentDiscoveryService.discoverContent, collectFulfilled,
      List.insertionSort, List.orderedInsert, List.take, codeSortScore, itemA, itemB]
  rw [h]
  intro hp
  cases hp with
  | cons h1 h2 => exact absurd (h1 itemB (by simp)) (by decide)

/-- C6 (amended): `discoverContent` returns the fulfilled items sorted and
truncated without any deduplication — every item occurs at most as often
as in the concatenated source results, and whenever the concatenation fits
within `maxItems` the multiplicities are exactly preserved, so natural-key
duplicates survive in the output. -/
theorem c6_no_dedup_count (results : List (Except String (List DiscoveredContent)))
    (maxItems : Nat) (now : ℚ) (x : DiscoveredContent) :
    (ContentDiscoveryService.discoverContent results maxItems now).count x ≤
      (collectFulfilled results).count x ∧
    ((collectFulfilled results).length ≤ maxItems →
      (ContentDiscoveryService.discoverContent results maxItems now).count x =
        (collectFulfilled results).count x) := by
  have hperm := List.perm_insertionSort
    (fun a b => codeSortScore now b ≤ codeSortScore now a) (collectFulfilled results)
  constructor
  · calc (ContentDiscoveryService.discoverContent results maxItems now).count x
        ≤ (List.insertionSort (fun a b => codeSortScore now b ≤ codeSortScore now a)
            (collectFulfilled results)).count x :=
          (List.take_sublist _ _).count_le x
      _ = (collectFulfilled results).count x := hperm.count_eq x
  · intro hlen
    have hlen2 : (List.insertionSort
        (fun a b => codeSortScore now b ≤ codeSortScore now a)
        (collectFulfilled results)).length ≤ maxItems := by
      rw [hperm.length_eq]
      exact hlen
    unfold ContentDiscoveryService.discoverContent
    rw [List.take_of_length_le hlen2]
    exact hperm.count_eq x

theorem c6_witness :
    (collectFulfilled [Except.ok [itemA], Except.ok [itemB]]).length ≤ 5 ∧
    (ContentDiscoveryService.discoverContent
        [Except.ok [itemA], Except.ok [itemB]] 5 0).count itemB =
      (collectFulfilled [Except.ok [itemA], Except.ok [itemB]]).count itemB :=
  ⟨by decide,
   (c6_no_dedup_count [Except.ok [itemA], Except.ok [itemB]] 5 0 itemB).2 (by decide)⟩

/-- C7: evaluation of the code at a concrete failing input. Two items of
equal quality, one fresh and one two days old, are returned with the OLD
item first: the comparator adds raw age in days positively
(`quality*0.7 + ageDays*0.3`, `codeSortScore`), so staler items outrank
fresh ones, while the composite ranking key of the claim
(`specRankKey`, with recencyFactor = 1 − min(ageDays, 1)) ranks the fresh
item strictly higher. The length bound of the claim does hold. -/
theorem c7_sort_bug_eval :
    ContentDiscoveryService.discoverContent
        [Except.ok [itemNew, itemOld]] 5 172800000 = [itemOld, itemNew] ∧
    specRankKey 172800000 itemOld < specRankKey 172800000 itemNew ∧
    (ContentDiscoveryService.discoverContent
        [Except.ok [itemNew, itemOld]] 5 172800000).length ≤ 5 := by
  have h : ContentDiscoveryService.discoverContent
      [Except.ok [itemNew, itemOld]] 5 172800000 = [itemOld, itemNew] := by
    norm_num [ContentDiscoveryService.discoverContent, collectFulfilled,
      List.insertionSort, List.orderedInsert, List.take, codeSortScore,
      itemNew, itemOld]
  refine ⟨h, ?_, ?_⟩
  · norm_num [specRankKey, itemNew, itemOld, min_def]
  · rw [h]
    simp

theorem collectFulfilled_append_error (e : String)
    (pre post : List (Except String (List DiscoveredContent))) :
    collectFulfilled (pre ++ Except.error e :: post) =
      collectFulfilled (pre ++ post) := by
  induction pre with
  | nil => simp [collectFulfilled]
  | cons r rest ih =>
    cases r with
    | ok items => simp [collectFulfilled, ih]
    | error s => simp [collectFulfilled, ih]

/-- C8: a rejected (throwing or timed-out) source contributes nothing and
does not abort the run — `discoverContent` with a failing source among the
settled outcomes returns exactly what it returns without that source. -/
theorem c8_partial_failure (pre post : List (Except String (List DiscoveredContent)))
    (e : String) (maxItems : Nat) (now : ℚ) :
    ContentDiscoveryService.discoverContent (pre ++ Except.error e :: post)
        maxItems now =
      ContentDiscoveryService.discoverContent (pre ++ post) maxItems now := by
  unfold ContentDiscoveryService.discoverContent
  rw [collectFulfilled_append_error]

/-- Adding a conditionally applied bonus keeps a nonnegative score
nonnegative, provided the bonus is nonnegative whenever it applies. -/
theorem add_ite_nonneg {c : Prop} [Decidable c] {x y : ℚ} (hx : 0 ≤ x)
    (hy : c → 0 ≤ y) : 0 ≤ if c then x + y else x := by
  split_ifs with h
  · exact add_nonneg hx (hy h)
  · exact hx

/-- C9 as stated is false on the code: for a negative rawScore the reddit
quality score is negative (here −2), because the code caps the score only
from above (`Math.min(quality, 1)`) and never from below. -/
theorem c9_counterexample :
    ¬ (0 ≤ ContentDiscoveryService.calculateRedditQuality 100000000000 redditNegPost ∧
       ContentDiscoveryService.calculateRedditQuality 100000000000 redditNegPost ≤ 1) := by
  have himg : hasImageExtension "https://example.com/post" = false := by decide
  have h : ContentDiscoveryService.calculateRedditQuality 100000000000 redditNegPost = -2 := by
    norm_num [ContentDiscoveryService.calculateRedditQuality, redditNegPost, himg, min_def]
  rw [h]
  norm_num

/-- C9 (amended): the reddit quality score lies in [0,1] for every input
with a nonnegative rawScore (the range of inputs actually reaching the
scorer, which filters `score > 10` first), and the news quality score lies
in [0,1] unconditionally; for negative rawScore the reddit score can drop
below 0 (see the counterexample). -/
theorem c9_quality_bounds (now : ℚ) (post : RedditPost) (article : NewsArticle)
    (hscore : 0 ≤ post.score) :
    (0 ≤ ContentDiscoveryService.calculateRedditQuality now post ∧
      ContentDiscoveryService.calculateRedditQuality now post ≤ 1) ∧
    (0 ≤ ContentDiscoveryService.calculateNewsQuality now article ∧
      ContentDiscoveryService.calculateNewsQuality now article ≤ 1) := by
  refine ⟨⟨?_, ?_⟩, ?_, ?_⟩
  · unfold ContentDiscoveryService.calculateRedditQuality
    dsimp only
    refine le_min ?_ zero_le_one
    refine add_ite_nonneg (add_ite_nonneg (add_ite_nonneg ?_ ?_) ?_) ?_
    · exact le_min (div_nonneg hscore (by norm_num)) (by norm_num)
    · intro hc
      exact le_min (div_nonneg (le_of_lt hc) (by norm_num)) (by norm_num)
    · intro _
      norm_num
    · intro hr
      have hdiv : (now - post.created_utc * 1000) / (1000 * 60 * 60) / 24 ≤ 1 := by
        rw [div_le_one (by norm_num : (0:ℚ) < 24)]
        exact le_of_lt hr
      have : (0:ℚ) ≤ 1 - (now - post.created_utc * 1000) / (1000 * 60 * 60) / 24 := by
        linarith
      nlinarith
  · unfold ContentDiscoveryService.calculateRedditQuality
    dsimp only
    exact min_le_right _ _
  · unfold ContentDiscoveryService.calculateNewsQuality
    dsimp only
    refine le_min ?_ zero_le_one
    refine add_ite_nonneg (add_ite_nonneg (add_ite_nonneg ?_ ?_) ?_) ?_
    · norm_num
    · intro _
      norm_num
    · intro _
      norm_num
    · intro hr
      have hdiv : (now - article.publishedAtMs) / (1000 * 60 * 60) / 48 ≤ 1 := by
        rw [div_le_one (by norm_num : (0:ℚ) < 48)]
        exact le_of_lt hr
      have : (0:ℚ) ≤ 1 - (now - article.publishedAtMs) / (1000 * 60 * 60) / 48 := by
        linarith
      nlinarith
  · unfold ContentDiscoveryService.calculateNewsQuality
    dsimp only
    exact min_le_right _ _

theorem c9_witness :
    (0 ≤ ContentDiscoveryService.calculateRedditQuality 1000000 examplePost ∧
      ContentDiscoveryService.calculateRedditQuality 1000000 examplePost ≤ 1) ∧
    (0 ≤ ContentDiscoveryService.calculateNewsQuality 1000000 exampleArticle ∧
      ContentDiscoveryService.calculateNewsQuality 1000000 exampleArticle ≤ 1) :=
  c9_quality_bounds 1000000 examplePost exampleArticle (by simp [examplePost])
